import Mathlib

/-!
Verification of the property-search MCP server (`src/main.py`).

The development shallowly embeds the two components of the program:

* the request translator: the query-parameter construction performed by
  `_search_melo_properties` (a list of key/value string pairs built from
  optional fields), together with the label-to-code mapping performed by
  the `search_properties` tool;
* the upstream client: the classification of the HTTP response performed
  around `client.get` / `raise_for_status` (success returns the decoded
  JSON payload verbatim; 401/403 become a `ValueError` with a fixed
  message; any other non-success status re-raises the HTTP status error),
  and the header-credential extraction guard of the tool.

The HTTP exchange itself is modelled by passing the upstream response as
an explicit oracle value; the decoded JSON payload is an abstract type
parameter since the program never inspects it (beyond logging).
-/

/-- Python `str(n)` for an integer argument. -/
def pyStr (n : Int) : String := toString n

/-- One `if x is not None: params.append((key, str(x)))` step of
`_search_melo_properties`. -/
def intParam (key : String) (v : Option Int) : List (String × String) :=
  match v with
  | some n => [(key, pyStr n)]
  | none => []

/-- The `if included_zipcodes:` loop: one `("includedZipcodes[]", zipcode)`
pair per entry, in order.  Python truthiness means `None` and `[]` both
produce nothing, which `List.map` on the empty list also gives. -/
def zipParams (included_zipcodes : Option (List String)) : List (String × String) :=
  match included_zipcodes with
  | some zs => zs.map (fun zipcode => ("includedZipcodes[]", zipcode))
  | none => []

/-- The `if order_by:` block of `_search_melo_properties`.  Python
truthiness: `None` and `""` are falsy and skip the block; inside, an
`if/elif` chain on the three recognized values, anything else appends
nothing. -/
def orderParams (order_by : Option String) : List (String × String) :=
  match order_by with
  | none => []
  | some ob =>
    if ob = "" then []
    else if ob = "pricePerMeter" then [("order[pricePerMeter]", "asc")]
    else if ob = "price" then [("order[price]", "asc")]
    else if ob = "updatedAt" then [("order[updatedAt]", "desc")]
    else []

/-- The keyword arguments of `_search_melo_properties` (defaults as in the
Python signature). -/
structure MeloArgs where
  property_type : Option Int := none
  transaction_type : Option Int := none
  budget_min : Option Int := none
  budget_max : Option Int := none
  surface_min : Option Int := none
  surface_max : Option Int := none
  price_per_meter_min : Option Int := none
  price_per_meter_max : Option Int := none
  bedroom_min : Option Int := none
  included_zipcodes : Option (List String) := none
  order_by : Option String := none
  items_per_page : Int := 10
  page : Int := 1
deriving Repr, DecidableEq

/-- The `params` list built by `_search_melo_properties` before the HTTP
call: the optional scalar filters in source order, the zip-code loop, the
ordering block, then the always-appended `itemsPerPage`, `page` and
`withCoherentPrice` pairs. -/
def buildParams (a : MeloArgs) : List (String × String) :=
  intParam "propertyTypes[]" a.property_type ++
  intParam "transactionType" a.transaction_type ++
  intParam "budgetMin" a.budget_min ++
  intParam "budgetMax" a.budget_max ++
  intParam "surfaceMin" a.surface_min ++
  intParam "surfaceMax" a.surface_max ++
  intParam "pricePerMeterMin" a.price_per_meter_min ++
  intParam "pricePerMeterMax" a.price_per_meter_max ++
  intParam "bedroomMin" a.bedroom_min ++
  zipParams a.included_zipcodes ++
  orderParams a.order_by ++
  [("itemsPerPage", pyStr a.items_per_page),
   ("page", pyStr a.page),
   ("withCoherentPrice", "true")]

/-- The `Literal["apartment", "house"]` type of the `search_properties` tool. -/
inductive PropertyType where
  | apartment
  | house
deriving Repr, DecidableEq

/-- The `Literal["sell", "rent"]` type of the `search_properties` tool. -/
inductive TransactionType where
  | sell
  | rent
deriving Repr, DecidableEq

/-- The `Literal["pricePerMeter", "price", "updatedAt"]` type of the
`search_properties` tool. -/
inductive OrderBy where
  | pricePerMeter
  | price
  | updatedAt
deriving Repr, DecidableEq

/-- The string value a given `OrderBy` literal stands for. -/
def orderByStr (o : OrderBy) : String :=
  match o with
  | .pricePerMeter => "pricePerMeter"
  | .price => "price"
  | .updatedAt => "updatedAt"

/-- The caller-facing parameter set of the `search_properties` tool, with
the declared defaults (`property_type="apartment"`,
`transaction_type="sell"`, `items_per_page=5`, `page=1`, the rest
absent). -/
structure SearchCriteria where
  property_type : PropertyType := .apartment
  transaction_type : TransactionType := .sell
  budget_min : Option Int := none
  budget_max : Option Int := none
  surface_min : Option Int := none
  surface_max : Option Int := none
  price_per_meter_min : Option Int := none
  price_per_meter_max : Option Int := none
  bedroom_min : Option Int := none
  zip_codes : Option (List String) := none
  order_by : Option OrderBy := none
  items_per_page : Int := 5
  page : Int := 1
deriving Repr, DecidableEq

/-- The pydantic `Field` bounds of `search_properties`: `items_per_page`
between 1 and 10, `page` at least 1. -/
def SearchCriteria.Valid (c : SearchCriteria) : Prop :=
  1 ≤ c.items_per_page ∧ c.items_per_page ≤ 10 ∧ 1 ≤ c.page

instance (c : SearchCriteria) : Decidable c.Valid := by
  unfold SearchCriteria.Valid
  infer_instance

/-- The dict `property_type_map = {"apartment": 0, "house": 1}`. -/
def propertyTypeMap (p : PropertyType) : Int :=
  match p with
  | .apartment => 0
  | .house => 1

/-- The dict `transaction_type_map = {"sell": 0, "rent": 1}`. -/
def transactionTypeMap (t : TransactionType) : Int :=
  match t with
  | .sell => 0
  | .rent => 1

/-- The argument translation performed by the `search_properties` tool
body when it invokes `_search_melo_properties`: labels mapped through the
two dictionaries, every optional field passed through, pagination passed
as given. -/
def toMeloArgs (c : SearchCriteria) : MeloArgs :=
  { property_type := some (propertyTypeMap c.property_type)
    transaction_type := some (transactionTypeMap c.transaction_type)
    budget_min := c.budget_min
    budget_max := c.budget_max
    surface_min := c.surface_min
    surface_max := c.surface_max
    price_per_meter_min := c.price_per_meter_min
    price_per_meter_max := c.price_per_meter_max
    bedroom_min := c.bedroom_min
    included_zipcodes := c.zip_codes
    order_by := c.order_by.map orderByStr
    items_per_page := c.items_per_page
    page := c.page }

/-- End-to-end translation: criteria accepted by the tool to the query
pairs sent upstream. -/
def translateCriteria (c : SearchCriteria) : List (String × String) :=
  buildParams (toMeloArgs c)

/-- The keys of a query, in order. -/
def queryKeys (q : List (String × String)) : List String := q.map Prod.fst

/-- The criteria of the end-to-end scenario:
`{propertyType: "house", transactionType: "rent", budgetMax: 2000}`,
everything else left to its default. -/
def exampleCriteria : SearchCriteria :=
  { property_type := .house
    transaction_type := .rent
    budget_max := some 2000 }

/-- C1: the criteria `{propertyType: "house", transactionType: "rent",
budgetMax: 2000}` with all other fields unset translate to exactly the
pairs `propertyTypes[]=1`, `transactionType=1`, `budgetMax=2000`,
`itemsPerPage=5`, `page=1`, `withCoherentPrice=true`, in this order, and
in particular no pair for any other range key. -/
theorem translate_example_house_rent_budget :
    translateCriteria exampleCriteria =
      [("propertyTypes[]", "1"), ("transactionType", "1"),
       ("budgetMax", "2000"), ("itemsPerPage", "5"), ("page", "1"),
       ("withCoherentPrice", "true")] := by
  decide

theorem queryKeys_append (a b : List (String × String)) :
    queryKeys (a ++ b) = queryKeys a ++ queryKeys b := by
  simp [queryKeys]

theorem mem_queryKeys_cons (key : String) (p : String × String)
    (ps : List (String × String)) :
    key ∈ queryKeys (p :: ps) ↔ key = p.1 ∨ key ∈ queryKeys ps := by
  simp [queryKeys, eq_comm]

theorem mem_queryKeys_nil (key : String) : ¬ key ∈ queryKeys [] := by
  simp [queryKeys]

theorem mem_queryKeys_intParam (k key : String) (v : Option Int) :
    key ∈ queryKeys (intParam k v) ↔ key = k ∧ v.isSome := by
  cases v <;> simp [intParam, queryKeys, eq_comm]

theorem mem_queryKeys_zipParams (key : String) (z : Option (List String)) :
    key ∈ queryKeys (zipParams z) ↔
      key = "includedZipcodes[]" ∧ z.getD [] ≠ [] := by
  cases z with
  | none => simp [zipParams, mem_queryKeys_nil]
  | some zs => cases zs <;> simp [zipParams, queryKeys, eq_comm]

theorem mem_queryKeys_orderParams_map (key : String) (o : Option OrderBy) :
    key ∈ queryKeys (orderParams (o.map orderByStr)) ↔
      (o = some .pricePerMeter ∧ key = "order[pricePerMeter]") ∨
      (o = some .price ∧ key = "order[price]") ∨
      (o = some .updatedAt ∧ key = "order[updatedAt]") := by
  rcases o with _ | o
  · simp [orderParams, mem_queryKeys_nil]
  · cases o <;> simp [orderParams, orderByStr, queryKeys, eq_comm]

/-- C2: translation is total and deterministic, and for each optional
numeric field the corresponding query pair is present if and only if the
field is set in the criteria. -/
theorem translateCriteria_optional_iff (c : SearchCriteria) (hv : c.Valid) :
    (("budgetMin" ∈ queryKeys (translateCriteria c)) ↔ c.budget_min.isSome) ∧
    (("budgetMax" ∈ queryKeys (translateCriteria c)) ↔ c.budget_max.isSome) ∧
    (("surfaceMin" ∈ queryKeys (translateCriteria c)) ↔ c.surface_min.isSome) ∧
    (("surfaceMax" ∈ queryKeys (translateCriteria c)) ↔ c.surface_max.isSome) ∧
    (("pricePerMeterMin" ∈ queryKeys (translateCriteria c)) ↔
      c.price_per_meter_min.isSome) ∧
    (("pricePerMeterMax" ∈ queryKeys (translateCriteria c)) ↔
      c.price_per_meter_max.isSome) ∧
    (("bedroomMin" ∈ queryKeys (translateCriteria c)) ↔ c.bedroom_min.isSome) ∧
    (∀ c' : SearchCriteria, c = c' →
      translateCriteria c = translateCriteria c') := by
  refine ⟨?_, ?_, ?_, ?_, ?_, ?_, ?_, fun c' hc => by rw [hc]⟩ <;>
    simp [translateCriteria, buildParams, toMeloArgs, queryKeys_append,
      List.mem_append, mem_queryKeys_intParam, mem_queryKeys_zipParams,
      mem_queryKeys_orderParams_map, mem_queryKeys_cons, mem_queryKeys_nil]

/-- A concrete criteria value used to witness `translateCriteria_optional_iff`:
two optional fields set, the rest unset. -/
def exampleCriteriaOpt : SearchCriteria :=
  { budget_min := some 100
    surface_max := some 80 }

theorem translateCriteria_optional_iff_witness :
    SearchCriteria.Valid exampleCriteriaOpt ∧
    ((("budgetMin" ∈ queryKeys (translateCriteria exampleCriteriaOpt)) ↔
        exampleCriteriaOpt.budget_min.isSome) ∧
     (("budgetMax" ∈ queryKeys (translateCriteria exampleCriteriaOpt)) ↔
        exampleCriteriaOpt.budget_max.isSome) ∧
     (("surfaceMin" ∈ queryKeys (translateCriteria exampleCriteriaOpt)) ↔
        exampleCriteriaOpt.surface_min.isSome) ∧
     (("surfaceMax" ∈ queryKeys (translateCriteria exampleCriteriaOpt)) ↔
        exampleCriteriaOpt.surface_max.isSome) ∧
     (("pricePerMeterMin" ∈ queryKeys (translateCriteria exampleCriteriaOpt)) ↔
        exampleCriteriaOpt.price_per_meter_min.isSome) ∧
     (("pricePerMeterMax" ∈ queryKeys (translateCriteria exampleCriteriaOpt)) ↔
        exampleCriteriaOpt.price_per_meter_max.isSome) ∧
     (("bedroomMin" ∈ queryKeys (translateCriteria exampleCriteriaOpt)) ↔
        exampleCriteriaOpt.bedroom_min.isSome) ∧
     (∀ c' : SearchCriteria, exampleCriteriaOpt = c' →
        translateCriteria exampleCriteriaOpt = translateCriteria c')) :=
  ⟨by decide, translateCriteria_optional_iff exampleCriteriaOpt (by decide)⟩

/-- C3: every translated query contains an `itemsPerPage` pair and a
`page` pair carrying the criteria's pagination values (whose declared
defaults are 5 and 1 when the caller leaves them unset), and always
contains the pair `withCoherentPrice=true`. -/
theorem translateCriteria_pagination (c : SearchCriteria) (hv : c.Valid) :
    ("itemsPerPage", pyStr c.items_per_page) ∈ translateCriteria c ∧
    ("page", pyStr c.page) ∈ translateCriteria c ∧
    ("withCoherentPrice", "true") ∈ translateCriteria c ∧
    ({} : SearchCriteria).items_per_page = 5 ∧
    ({} : SearchCriteria).page = 1 := by
  refine ⟨?_, ?_, ?_, rfl, rfl⟩ <;>
    simp [translateCriteria, buildParams, toMeloArgs, List.mem_append]

theorem translateCriteria_pagination_witness :
    SearchCriteria.Valid {} ∧
    (("itemsPerPage", pyStr ({} : SearchCriteria).items_per_page) ∈
        translateCriteria {} ∧
     ("page", pyStr ({} : SearchCriteria).page) ∈ translateCriteria {} ∧
     ("withCoherentPrice", "true") ∈ translateCriteria {} ∧
     ({} : SearchCriteria).items_per_page = 5 ∧
     ({} : SearchCriteria).page = 1) :=
  ⟨by decide, translateCriteria_pagination {} (by decide)⟩

/-- A query pair whose key is one of the three upstream sort keys emitted
by the `order_by` block. -/
def isSortPair (p : String × String) : Bool :=
  p.1 == "order[pricePerMeter]" || p.1 == "order[price]" ||
    p.1 == "order[updatedAt]"

theorem filter_sort_intParam (k : String) (v : Option Int)
    (h1 : k ≠ "order[pricePerMeter]") (h2 : k ≠ "order[price]")
    (h3 : k ≠ "order[updatedAt]") :
    (intParam k v).filter isSortPair = [] := by
  cases v <;> simp [intParam, isSortPair, List.filter_cons, h1, h2, h3]

theorem filter_sort_zipParams (z : Option (List String)) :
    (zipParams z).filter isSortPair = [] := by
  cases z with
  | none => rfl
  | some zs => induction zs <;> simp_all [zipParams, isSortPair, List.filter_cons]

theorem filter_sort_orderParams (ob : Option String) :
    (orderParams ob).filter isSortPair = orderParams ob := by
  rcases ob with _ | s
  · rfl
  · simp only [orderParams]
    split_ifs <;> simp [isSortPair]

/-- C4: the sort pairs of a translated query are exactly one ascending
`order[pricePerMeter]` pair when `orderBy` is `pricePerMeter`, one
ascending `order[price]` pair when it is `price`, one descending
`order[updatedAt]` pair when it is `updatedAt`, and none when `orderBy`
is absent; an unrecognized `order_by` string emits no pair at all. -/
theorem translateCriteria_sort_pairs (c : SearchCriteria) (hv : c.Valid) :
    (c.order_by = some .pricePerMeter →
      (translateCriteria c).filter isSortPair =
        [("order[pricePerMeter]", "asc")]) ∧
    (c.order_by = some .price →
      (translateCriteria c).filter isSortPair = [("order[price]", "asc")]) ∧
    (c.order_by = some .updatedAt →
      (translateCriteria c).filter isSortPair =
        [("order[updatedAt]", "desc")]) ∧
    (c.order_by = none →
      (translateCriteria c).filter isSortPair = []) ∧
    (∀ s : String, s ≠ "pricePerMeter" → s ≠ "price" → s ≠ "updatedAt" →
      orderParams (some s) = []) := by
  refine ⟨?_, ?_, ?_, ?_, ?_⟩
  · intro h
    simp [translateCriteria, buildParams, toMeloArgs, h, List.filter_append,
      filter_sort_intParam, filter_sort_zipParams, orderParams, orderByStr,
      isSortPair, List.filter_cons]
  · intro h
    simp [translateCriteria, buildParams, toMeloArgs, h, List.filter_append,
      filter_sort_intParam, filter_sort_zipParams, orderParams, orderByStr,
      isSortPair, List.filter_cons]
  · intro h
    simp [translateCriteria, buildParams, toMeloArgs, h, List.filter_append,
      filter_sort_intParam, filter_sort_zipParams, orderParams, orderByStr,
      isSortPair, List.filter_cons]
  · intro h
    simp [translateCriteria, buildParams, toMeloArgs, h, List.filter_append,
      filter_sort_intParam, filter_sort_zipParams, orderParams, orderByStr,
      isSortPair, List.filter_cons]
  · intro s h1 h2 h3
    simp only [orderParams]
    split_ifs <;> rfl

/-- A concrete criteria value used to witness `translateCriteria_sort_pairs`. -/
def exampleCriteriaSort : SearchCriteria :=
  { order_by := some .pricePerMeter }

theorem translateCriteria_sort_pairs_witness :
    SearchCriteria.Valid exampleCriteriaSort ∧
    ((exampleCriteriaSort.order_by = some .pricePerMeter →
       (translateCriteria exampleCriteriaSort).filter isSortPair =
         [("order[pricePerMeter]", "asc")]) ∧
     (exampleCriteriaSort.order_by = some .price →
       (translateCriteria exampleCriteriaSort).filter isSortPair =
         [("order[price]", "asc")]) ∧
     (exampleCriteriaSort.order_by = some .updatedAt →
       (translateCriteria exampleCriteriaSort).filter isSortPair =
         [("order[updatedAt]", "desc")]) ∧
     (exampleCriteriaSort.order_by = none →
       (translateCriteria exampleCriteriaSort).filter isSortPair = []) ∧
     (∀ s : String, s ≠ "pricePerMeter" → s ≠ "price" → s ≠ "updatedAt" →
       orderParams (some s) = [])) :=
  ⟨by decide, translateCriteria_sort_pairs exampleCriteriaSort (by decide)⟩

/-- A query pair carrying a zip code (`includedZipcodes[]` key). -/
def isZipPair (p : String × String) : Bool := p.1 == "includedZipcodes[]"

theorem filter_zip_intParam (k : String) (v : Option Int)
    (h : k ≠ "includedZipcodes[]") :
    (intParam k v).filter isZipPair = [] := by
  cases v <;> simp [intParam, isZipPair, List.filter_cons, h]

theorem filter_zip_zipParams (z : Option (List String)) :
    (zipParams z).filter isZipPair =
      (z.getD []).map (fun zipcode => ("includedZipcodes[]", zipcode)) := by
  cases z with
  | none => rfl
  | some zs => induction zs <;> simp_all [zipParams, isZipPair, List.filter_cons]

theorem filter_zip_orderParams (ob : Option String) :
    (orderParams ob).filter isZipPair = [] := by
  rcases ob with _ | s
  · rfl
  · simp only [orderParams]
    split_ifs <;> simp [isZipPair]

/-- C5: a non-empty caller-given zip-code list of length n yields exactly
n `includedZipcodes[]` pairs, one per entry, values in caller order, with
no deduplication. -/
theorem translateCriteria_zipcodes (c : SearchCriteria) (zs : List String)
    (hz : c.zip_codes = some zs) (hne : zs ≠ []) (hv : c.Valid) :
    (translateCriteria c).filter isZipPair =
      zs.map (fun zipcode => ("includedZipcodes[]", zipcode)) ∧
    ((translateCriteria c).filter isZipPair).map Prod.snd = zs ∧
    ((translateCriteria c).filter isZipPair).length = zs.length := by
  have hmain : (translateCriteria c).filter isZipPair =
      zs.map (fun zipcode => ("includedZipcodes[]", zipcode)) := by
    simp [translateCriteria, buildParams, toMeloArgs, hz, List.filter_append,
      filter_zip_intParam, filter_zip_zipParams, filter_zip_orderParams,
      isZipPair, List.filter_cons]
  refine ⟨hmain, ?_, ?_⟩ <;> simp [hmain, List.map_map, Function.comp]

/-- A concrete criteria value used to witness `translateCriteria_zipcodes`. -/
def exampleCriteriaZip : SearchCriteria :=
  { zip_codes := some ["75011", "75012", "75011"] }

theorem translateCriteria_zipcodes_witness :
    (exampleCriteriaZip.zip_codes = some ["75011", "75012", "75011"] ∧
     ["75011", "75012", "75011"] ≠ ([] : List String) ∧
     SearchCriteria.Valid exampleCriteriaZip) ∧
    ((translateCriteria exampleCriteriaZip).filter isZipPair =
       ["75011", "75012", "75011"].map
         (fun zipcode => ("includedZipcodes[]", zipcode)) ∧
     ((translateCriteria exampleCriteriaZip).filter isZipPair).map Prod.snd =
       ["75011", "75012", "75011"] ∧
     ((translateCriteria exampleCriteriaZip).filter isZipPair).length =
       (["75011", "75012", "75011"] : List String).length) :=
  ⟨⟨by decide, by decide, by decide⟩,
   translateCriteria_zipcodes exampleCriteriaZip ["75011", "75012", "75011"]
     (by decide) (by decide) (by decide)⟩

/-- C10: an empty zip-code list is treated exactly like an absent one:
no `includedZipcodes[]` pair is emitted, and the whole translated query
coincides with the one for the same criteria without a zip-code list. -/
theorem translateCriteria_empty_zipcodes (c : SearchCriteria)
    (hz : c.zip_codes = some []) :
    "includedZipcodes[]" ∉ queryKeys (translateCriteria c) ∧
    translateCriteria c = translateCriteria { c with zip_codes := none } := by
  constructor
  · simp [translateCriteria, buildParams, toMeloArgs, hz, queryKeys_append,
      List.mem_append, mem_queryKeys_intParam, mem_queryKeys_zipParams,
      mem_queryKeys_orderParams_map, mem_queryKeys_cons, mem_queryKeys_nil]
  · simp [translateCriteria, buildParams, toMeloArgs, hz, zipParams]

/-- A concrete criteria value used to witness
`translateCriteria_empty_zipcodes`. -/
def exampleCriteriaEmptyZip : SearchCriteria :=
  { zip_codes := some [] }

theorem translateCriteria_empty_zipcodes_witness :
    exampleCriteriaEmptyZip.zip_codes = some [] ∧
    ("includedZipcodes[]" ∉ queryKeys (translateCriteria exampleCriteriaEmptyZip) ∧
     translateCriteria exampleCriteriaEmptyZip =
       translateCriteria { exampleCriteriaEmptyZip with zip_codes := none }) :=
  ⟨by decide, translateCriteria_empty_zipcodes exampleCriteriaEmptyZip (by decide)⟩

/-- C6: the label-to-code mappings are exactly apartment→0 and house→1
(emitted under `propertyTypes[]`), sell→0 and rent→1 (emitted under
`transactionType`), and the two label vocabularies are closed: no other
label exists at the tool boundary. -/
theorem label_code_mapping :
    propertyTypeMap .apartment = 0 ∧ propertyTypeMap .house = 1 ∧
    transactionTypeMap .sell = 0 ∧ transactionTypeMap .rent = 1 ∧
    (∀ c : SearchCriteria,
      ("propertyTypes[]", pyStr (propertyTypeMap c.property_type)) ∈
        translateCriteria c ∧
      ("transactionType", pyStr (transactionTypeMap c.transaction_type)) ∈
        translateCriteria c) ∧
    (∀ p : PropertyType, p = .apartment ∨ p = .house) ∧
    (∀ t : TransactionType, t = .sell ∨ t = .rent) := by
  refine ⟨rfl, rfl, rfl, rfl, ?_, ?_, ?_⟩
  · intro c
    constructor <;>
      simp [translateCriteria, buildParams, toMeloArgs, intParam,
        List.mem_append]
  · intro p
    cases p <;> simp
  · intro t
    cases t <;> simp

/-- The fixed base host `MELO_API_BASE_URL` of the source. -/
def MELO_API_BASE_URL : String := "https://api.notif.immo"

/-- The fixed request URL, base host plus `/documents/properties`. -/
def meloUrl : String := MELO_API_BASE_URL ++ "/documents/properties"

/-- The two request headers attached to the upstream GET. -/
def meloHeaders (api_key : String) : List (String × String) :=
  [("Content-Type", "application/json"), ("X-API-KEY", api_key)]

/-- The message of the `ValueError` raised on a 401/403 upstream status. -/
def invalidKeyMsg : String :=
  "Invalid Melo API key. Please check your credentials."

/-- The message of the `ValueError` raised when the `x-api-key` header is
missing. -/
def missingKeyMsg : String :=
  "Missing X-API-KEY header. Please provide your Melo API key."

/-- A typed failure of `_search_melo_properties`: the `ValueError` raised
for a 401/403 status, or the re-raised `httpx.HTTPStatusError` for any
other non-success status. -/
inductive MeloError where
  | invalidApiKey (msg : String)
  | httpStatusError (status : Nat) (body : String)
deriving Repr, DecidableEq

/-- The upstream HTTP response, supplied as an oracle: status code,
decoded JSON payload (kept abstract, since the program never inspects it)
and raw body text. -/
structure HttpResponse (α : Type) where
  status : Nat
  json : α
  text : String
deriving Repr, DecidableEq

/-- The condition under which `httpx`'s `raise_for_status` does not
raise: a 2xx status code. -/
def isSuccessStatus (status : Nat) : Bool :=
  decide (200 ≤ status) && decide (status ≤ 299)

/-- The response handling of `_search_melo_properties`:
`raise_for_status` then `response.json()` on success; the
`except httpx.HTTPStatusError` handler turns a 401 or 403 status into the
fixed `ValueError` and re-raises anything else. -/
def handleMeloResponse {α : Type} (resp : HttpResponse α) :
    Except MeloError α :=
  if isSuccessStatus resp.status then .ok resp.json
  else if resp.status = 401 || resp.status = 403 then
    .error (.invalidApiKey invalidKeyMsg)
  else .error (.httpStatusError resp.status resp.text)

/-- One completed `_search_melo_properties` call: the outcome together
with the request it issued (URL, headers, query pairs) and the log lines
emitted before the call. -/
structure MeloCall (α : Type) where
  result : Except MeloError α
  requestUrl : String
  requestHeaders : List (String × String)
  requestParams : List (String × String)
  requestLog : List String
deriving Repr

/-- Embedding of `_search_melo_properties`, with the HTTP exchange
replaced by the response oracle `resp`: it builds the query pairs, the
headers and the request log, then classifies the response. -/
def searchMelo {α : Type} (api_key : String) (args : MeloArgs)
    (resp : HttpResponse α) : MeloCall α :=
  let params := buildParams args
  { result := handleMeloResponse resp
    requestUrl := meloUrl
    requestHeaders := meloHeaders api_key
    requestParams := params
    requestLog :=
      ["Melo API Request", "URL: " ++ meloUrl] ++
        params.map (fun p => "  " ++ p.1 ++ ": " ++ p.2) }

/-- Whether `needle` occurs as a contiguous run inside `hay`, at the
character-list level. -/
def listContainsSub (needle : List Char) : List Char → Bool
  | [] => needle.isEmpty
  | c :: rest => needle.isPrefixOf (c :: rest) || listContainsSub needle rest

/-- Whether `needle` occurs as a contiguous substring of `hay`. -/
def strContainsSubstr (hay needle : String) : Bool :=
  listContainsSub needle.toList hay.toList

/-- A concrete 401 response used for the C8 theorems. -/
def resp401 : HttpResponse String :=
  { status := 401, json := "", text := "Unauthorized" }

/-- C8 as stated is too strong on one point: the 401/403 failure message
is the fixed text `invalidKeyMsg`, so a credential that happens to occur
inside that text — here the credential "Melo" — is contained in the
message. -/
theorem melo_invalid_credential_counterexample :
    (searchMelo "Melo" {} resp401).result =
      .error (.invalidApiKey invalidKeyMsg) ∧
    strContainsSubstr invalidKeyMsg "Melo" = true :=
  ⟨rfl, by decide⟩

/-- C8 (amended): on a non-success status, a 401 or 403 produces the
invalid-credential failure whose message is the fixed text
`invalidKeyMsg`, independent of the credential — hence the message never
contains the credential unless the credential happens to occur inside
that fixed text — and any other non-success status produces the
re-raised HTTP status error carrying the status and body. -/
theorem melo_error_classification {α : Type} (api_key : String)
    (args : MeloArgs) (resp : HttpResponse α)
    (hfail : isSuccessStatus resp.status = false) :
    ((resp.status = 401 ∨ resp.status = 403) →
      (searchMelo api_key args resp).result =
        .error (.invalidApiKey invalidKeyMsg)) ∧
    (strContainsSubstr invalidKeyMsg api_key = false →
      ∀ msg, (searchMelo api_key args resp).result =
          .error (.invalidApiKey msg) →
        strContainsSubstr msg api_key = false) ∧
    (¬ (resp.status = 401 ∨ resp.status = 403) →
      (searchMelo api_key args resp).result =
        .error (.httpStatusError resp.status resp.text)) := by
  refine ⟨?_, ?_, ?_⟩
  · intro h
    rcases h with h | h <;>
      simp [searchMelo, handleMeloResponse, h, isSuccessStatus]
  · intro hsub msg hmsg
    have heq : (searchMelo api_key args resp).result =
        handleMeloResponse resp := rfl
    rw [heq] at hmsg
    unfold handleMeloResponse at hmsg
    rw [hfail] at hmsg
    simp only [Bool.false_eq_true, if_false] at hmsg
    split at hmsg
    · have hinj : invalidKeyMsg = msg :=
        MeloError.invalidApiKey.inj (Except.error.inj hmsg)
      rw [← hinj]
      exact hsub
    · exact absurd (Except.error.inj hmsg) (by simp)
  · intro h
    push_neg at h
    simp [searchMelo, handleMeloResponse, hfail, h.1, h.2]

theorem melo_error_classification_witness :
    isSuccessStatus resp401.status = false ∧
    (((resp401.status = 401 ∨ resp401.status = 403) →
       (searchMelo "sk-test-123" {} resp401).result =
         .error (.invalidApiKey invalidKeyMsg)) ∧
     (strContainsSubstr invalidKeyMsg "sk-test-123" = false →
       ∀ msg, (searchMelo "sk-test-123" {} resp401).result =
           .error (.invalidApiKey msg) →
         strContainsSubstr msg "sk-test-123" = false) ∧
     (¬ (resp401.status = 401 ∨ resp401.status = 403) →
       (searchMelo "sk-test-123" {} resp401).result =
         .error (.httpStatusError resp401.status resp401.text))) :=
  ⟨by decide, melo_error_classification "sk-test-123" {} resp401 (by decide)⟩

/-- A concrete successful response used for the C9 witness. -/
def respOk : HttpResponse String :=
  { status := 200, json := "hydra-payload-3-items", text := "body" }

/-- C9: on a successful (2xx) status the call returns the decoded JSON
payload verbatim, and the result depends only on the response — not on
the credential or the query arguments that shape the request and its
log. -/
theorem melo_success_verbatim {α : Type} (api_key : String)
    (args : MeloArgs) (resp : HttpResponse α)
    (hs : isSuccessStatus resp.status = true) :
    (searchMelo api_key args resp).result = .ok resp.json ∧
    (∀ (api_key' : String) (args' : MeloArgs),
      (searchMelo api_key args resp).result =
        (searchMelo api_key' args' resp).result) := by
  constructor
  · simp [searchMelo, handleMeloResponse, hs]
  · intro k a
    rfl

theorem melo_success_verbatim_witness :
    isSuccessStatus respOk.status = true ∧
    ((searchMelo "sk-test-123" {} respOk).result = .ok respOk.json ∧
     (∀ (api_key' : String) (args' : MeloArgs),
       (searchMelo "sk-test-123" {} respOk).result =
         (searchMelo api_key' args' respOk).result)) :=
  ⟨by decide, melo_success_verbatim "sk-test-123" {} respOk (by decide)⟩

/-- A typed failure of the `search_properties` tool: the `ValueError`
raised when the `x-api-key` header is absent, or a failure propagated
from `_search_melo_properties`. -/
inductive ToolError where
  | missingApiKey (msg : String)
  | upstream (e : MeloError)
deriving Repr, DecidableEq

/-- Python `headers.get(name)` on the header dict delivered by
`get_http_headers()`: the value of the first pair with the given name. -/
def getHeader (headers : List (String × String)) (name : String) :
    Option String :=
  (headers.find? (fun p => p.1 == name)).map Prod.snd

/-- One completed `search_properties` invocation: its outcome and the
number of `_search_melo_properties` calls it made. -/
structure ToolCall (α : Type) where
  result : Except ToolError α
  upstreamCalls : Nat
deriving Repr

/-- Embedding of the `search_properties` tool body: extract `x-api-key`
from the transport headers; raise the missing-key `ValueError` without
any upstream call when it is absent or empty (`if not api_key:`);
otherwise map the labels, delegate to `_search_melo_properties` once and
propagate its outcome. -/
def search_properties {α : Type} (headers : List (String × String))
    (c : SearchCriteria) (resp : HttpResponse α) : ToolCall α :=
  match getHeader headers "x-api-key" with
  | none =>
    { result := .error (.missingApiKey missingKeyMsg), upstreamCalls := 0 }
  | some api_key =>
    if api_key = "" then
      { result := .error (.missingApiKey missingKeyMsg), upstreamCalls := 0 }
    else
      { result :=
          ((searchMelo api_key (toMeloArgs c) resp).result).mapError .upstream
        upstreamCalls := 1 }

/-- C7: when the transport headers contain no `x-api-key` entry, the
tool fails with the missing-credential error and the upstream client is
never called. -/
theorem search_properties_missing_key {α : Type}
    (headers : List (String × String)) (c : SearchCriteria)
    (resp : HttpResponse α)
    (h : "x-api-key" ∉ headers.map Prod.fst) :
    (search_properties headers c resp).result =
      .error (.missingApiKey missingKeyMsg) ∧
    (search_properties headers c resp).upstreamCalls = 0 := by
  have hnone : getHeader headers "x-api-key" = none := by
    unfold getHeader
    rw [List.find?_eq_none.mpr]
    · rfl
    · intro p hp
      simp only [beq_iff_eq]
      intro hk
      exact h (List.mem_map.mpr ⟨p, hp, hk⟩)
  constructor <;> simp [search_properties, hnone]

theorem search_properties_missing_key_witness :
    "x-api-key" ∉
      ([("content-type", "application/json")] :
        List (String × String)).map Prod.fst ∧
    ((search_properties [("content-type", "application/json")] {}
        (⟨200, "ok", "ok"⟩ : HttpResponse String)).result =
       .error (.missingApiKey missingKeyMsg) ∧
     (search_properties [("content-type", "application/json")] {}
        (⟨200, "ok", "ok"⟩ : HttpResponse String)).upstreamCalls = 0) :=
  ⟨by decide,
   search_properties_missing_key [("content-type", "application/json")] {}
     (⟨200, "ok", "ok"⟩ : HttpResponse String) (by decide)⟩
